import Mathlib

/-!
Shallow embedding of `omni.isaac.gym.vec_env/vec_env_base.py` (class
`VecEnvBase`), an adapter that exposes a simulation host's task loop through
the standard gym environment interface.

The external collaborators (simulation application, world/stage, task object,
gym base class, seeding utility) are opaque in the source; here they are
modelled as bundles of functions over abstract state types.  Calls the adapter
makes to them are recorded in an ordered trace so that claims about which
external calls happen (and with which arguments) can be stated precisely.
The task's `pre_physics_step` hook and the world's `step` call may raise
(modelled as returning `some` exception); all other external calls are total.
Python floats `1.0` and `1.0 / 60.0` are modelled as the exact rationals they
denote in the source text.
-/

/-- Python primitive values, as they occur in the `sim_params` dict. -/
inductive PyVal where
  | pyNone : PyVal
  | pyBool : Bool → PyVal
  | pyInt : Int → PyVal
  | pyStr : String → PyVal
deriving Repr, DecidableEq

/-- Python truthiness of a `PyVal` (`bool(v)`). -/
def PyVal.truthy : PyVal → Bool
  | .pyNone => false
  | .pyBool b => b
  | .pyInt n => n != 0
  | .pyStr s => s != ""

/-- A Python dict with string keys, as an association list (keys unique by
construction of the callers; lookup takes the first binding). -/
abbrev PyDict := List (String × PyVal)

/-- Python truthiness of an optional dict (`None` and `\x7b\x7d` are falsy). -/
def dictTruthy : Option PyDict → Bool
  | Option.none => false
  | some d => !d.isEmpty

/-- Python `k in d` on an optional dict (callers only evaluate this after a
truthiness guard, so the `None` case is arbitrary; `False` matches Python
short-circuiting). -/
def dictContains : Option PyDict → String → Bool
  | Option.none, _ => false
  | some d, k => (d.lookup k).isSome

/-- Truthiness of `d[k]` on an optional dict (`False` when absent; callers
only evaluate this after a containment guard). -/
def dictGetTruthy : Option PyDict → String → Bool
  | Option.none, _ => false
  | some d, k =>
    match d.lookup k with
    | some v => v.truthy
    | Option.none => false

/-- The environment variable consulted in `__init__` for headless runs. -/
def expPathVarName : String := "EXP_PATH"

/-- The initial value of the `experience` local in `__init__` (kept when
`headless` is false): the empty string. -/
def defaultExperience : String := ""

/-- Suffix appended to `EXP_PATH` to form the headless experience file. -/
def headlessKitSuffix : String := "/omni.isaac.sim.python.gym.headless.kit"

/-- Host-device string used in `set_task`. -/
def cpuDevice : String := "cpu"

/-- Accelerated-device string used in `set_task`. -/
def cudaDevice : String := "cuda"

/-- The default render mode recognised by `render`. -/
def humanMode : String := "human"

/-- The `sim_params` key selecting the GPU pipeline. -/
def useGpuPipelineKey : String := "use_gpu_pipeline"

/-- The `sim_params` key controlling the viewport extension. -/
def enableViewportKey : String := "enable_viewport"

/-- The configuration dict passed to `SimulationApp` in `__init__`. -/
structure SimAppConfig where
  headless : Bool
  physics_device : Int
deriving Repr, DecidableEq

/-- Observable effects of `__init__` on the simulation host: the experience
file string, the `SimulationApp` configuration, and the process-wide
scene-graph-instancing renderer setting. -/
structure InitEffects where
  experience : String
  app_config : SimAppConfig
  scene_graph_instancing : Bool
deriving Repr, DecidableEq

/-- Python exceptions the embedding distinguishes: `os.environ[k]` raises
`KeyError(k)` when `k` is absent. -/
inductive PyError where
  | keyError : String → PyError
deriving Repr, DecidableEq

/-- The adapter's own attributes (`self._render`, `self.sim_frame_count`,
`self._num_envs`, `self.observation_space`, `self.action_space`).  The
space/count attributes do not exist before `set_task`, hence `Option`.
External state (task internals, world internals) is threaded separately,
mirroring that the adapter only holds references to those objects. -/
structure EnvState (Space : Type) where
  render : Bool
  sim_frame_count : Nat
  num_envs : Option Nat
  observation_space : Option Space
  action_space : Option Space
deriving Repr, DecidableEq

/-- The external task object: declared spaces and environment count, plus the
lifecycle hooks, as functions over an abstract internal task state `TS`.
`pre_physics_step` may raise (second component `some e`); the query hooks and
`reset` are total but may mutate the task state. -/
structure RLTask (ε Actions Obs Rew Done TS Space : Type) where
  num_envs : Nat
  observation_space : Space
  action_space : Space
  pre_physics_step : Actions → TS → TS × Option ε
  get_observations : TS → Obs × TS
  calculate_metrics : TS → Rew × TS
  is_done : TS → Done × TS
  reset : TS → TS

/-- Arguments the `World(...)` constructor is called with in `set_task`. -/
structure WorldParams where
  stage_units_in_meters : ℚ
  rendering_dt : ℚ
  backend : String
  sim_params : Option PyDict
  device : String
deriving Repr, DecidableEq

/-- The external world/stage object's API, over an abstract world state `WS`.
`step` takes the render flag and may raise. -/
structure WorldAPI (ε WS : Type) where
  create : WorldParams → WS
  add_task : WS → WS
  step : Bool → WS → WS × Option ε
  render : WS → WS
  reset : WS → WS

/-- One external call made by the adapter, recorded in order in a trace. -/
inductive Call (Actions : Type) where
  | prePhysicsStep : Actions → Call Actions
  | worldStep : Bool → Call Actions
  | getObservations : Call Actions
  | calculateMetrics : Call Actions
  | isDone : Call Actions
  | taskReset : Call Actions
  | worldRender : Call Actions
  | gymEnvRender : String → Call Actions
  | worldCreate : WorldParams → Call Actions
  | addTask : Call Actions
  | disableViewportExtension : Call Actions
  | worldReset : Call Actions
deriving Repr, DecidableEq, BEq

/-- Embedding of `VecEnvBase.__init__(headless, sim_device)`.  `env_vars` is
`os.environ`.  The experience f-string reads `EXP_PATH` (raising `KeyError`
when absent) only in the headless branch; otherwise `experience` stays `""`.
On success the adapter records `render = not headless` and a zero frame
counter, and the host has launched with the given config and enabled
scene-graph instancing. -/
def VecEnvBase.construct (Space : Type) (env_vars : String → Option String)
    (headless : Bool) (sim_device : Int) :
    Except PyError (EnvState Space × InitEffects) :=
  let experienceE : Except PyError String :=
    if headless then
      match env_vars expPathVarName with
      | some p => Except.ok (p ++ headlessKitSuffix)
      | Option.none => Except.error (PyError.keyError expPathVarName)
    else Except.ok defaultExperience
  match experienceE with
  | Except.error e => Except.error e
  | Except.ok experience =>
    Except.ok
      ({ render := !headless
         sim_frame_count := 0
         num_envs := Option.none
         observation_space := Option.none
         action_space := Option.none },
       { experience := experience
         app_config := { headless := headless, physics_device := sim_device }
         scene_graph_instancing := true })

/-- Embedding of the device-selection lines of `set_task`:
`device = "cpu"; if sim_params and "use_gpu_pipeline" in sim_params: if
sim_params["use_gpu_pipeline"]: device = "cuda"`. -/
def VecEnvBase.chooseDevice (sim_params : Option PyDict) : String :=
  if dictTruthy sim_params && dictContains sim_params useGpuPipelineKey then
    if dictGetTruthy sim_params useGpuPipelineKey then cudaDevice else cpuDevice
  else cpuDevice

/-- Result of `set_task`: the updated adapter state, the new world state, the
parameters the `World` constructor received, and the trace of external
calls. -/
structure SetTaskResult (Actions WS Space : Type) where
  env : EnvState Space
  ws : WS
  world_params : WorldParams
  trace : List (Call Actions)

/-- Embedding of `VecEnvBase.set_task(task, backend, sim_params, init_sim)`:
chooses the device, constructs the `World` with `stage_units_in_meters=1.0`,
`rendering_dt=1.0/60.0`, the given backend/sim_params and chosen device, adds
the task, caches `num_envs` and the two spaces on the adapter, disables the
viewport extension when `sim_params` explicitly sets `enable_viewport` falsy,
and finally resets the world when `init_sim` is set. -/
def VecEnvBase.set_task {ε Actions Obs Rew Done TS WS Space : Type}
    (w : WorldAPI ε WS) (env : EnvState Space)
    (task : RLTask ε Actions Obs Rew Done TS Space)
    (backend : String) (sim_params : Option PyDict) (init_sim : Bool) :
    SetTaskResult Actions WS Space :=
  let device := VecEnvBase.chooseDevice sim_params
  let wp : WorldParams :=
    { stage_units_in_meters := 1
      rendering_dt := 1 / 60
      backend := backend
      sim_params := sim_params
      device := device }
  let ws0 := w.create wp
  let ws1 := w.add_task ws0
  let env1 : EnvState Space :=
    { env with
      num_envs := some task.num_envs
      observation_space := some task.observation_space
      action_space := some task.action_space }
  let disableViewport :=
    dictTruthy sim_params && dictContains sim_params enableViewportKey
      && !(dictGetTruthy sim_params enableViewportKey)
  let trace1 : List (Call Actions) :=
    [Call.worldCreate wp, Call.addTask]
      ++ (if disableViewport then [Call.disableViewportExtension] else [])
  if init_sim then
    { env := env1, ws := w.reset ws1, world_params := wp
      trace := trace1 ++ [Call.worldReset] }
  else
    { env := env1, ws := ws1, world_params := wp, trace := trace1 }

/-- Result of one `step` call: adapter/task/world states after it, the
returned value (or the exception that propagated), and the call trace. -/
structure StepResult (ε Actions Obs Rew Done TS WS Space : Type) where
  env : EnvState Space
  ts : TS
  ws : WS
  out : Except ε (Obs × Rew × Done × PyDict)
  trace : List (Call Actions)

/-- Embedding of `VecEnvBase.step(actions)`: forwards `actions` to
`pre_physics_step`, steps the world with `render=self._render`, increments
`sim_frame_count`, queries observations, rewards and dones, and returns the
4-tuple with `info = \x7b\x7d`.  An exception from the hook or the world tick
propagates before the increment line runs. -/
def VecEnvBase.step {ε Actions Obs Rew Done TS WS Space : Type}
    (task : RLTask ε Actions Obs Rew Done TS Space) (w : WorldAPI ε WS)
    (env : EnvState Space) (ts : TS) (ws : WS) (actions : Actions) :
    StepResult ε Actions Obs Rew Done TS WS Space :=
  let pre := task.pre_physics_step actions ts
  match pre.2 with
  | some e =>
    { env := env, ts := pre.1, ws := ws, out := Except.error e
      trace := [Call.prePhysicsStep actions] }
  | Option.none =>
    let wstep := w.step env.render ws
    match wstep.2 with
    | some e =>
      { env := env, ts := pre.1, ws := wstep.1, out := Except.error e
        trace := [Call.prePhysicsStep actions, Call.worldStep env.render] }
    | Option.none =>
      let env1 := { env with sim_frame_count := env.sim_frame_count + 1 }
      let q1 := task.get_observations pre.1
      let q2 := task.calculate_metrics q1.2
      let q3 := task.is_done q2.2
      let info : PyDict := []
      { env := env1, ts := q3.2, ws := wstep.1
        out := Except.ok (q1.1, q2.1, q3.1, info)
        trace := [Call.prePhysicsStep actions, Call.worldStep env.render,
                  Call.getObservations, Call.calculateMetrics, Call.isDone] }

/-- Result of one `reset` call: states after it, the returned observations
(or the exception from the world tick), and the call trace. -/
structure ResetResult (ε Actions Obs TS WS Space : Type) where
  env : EnvState Space
  ts : TS
  ws : WS
  out : Except ε Obs
  trace : List (Call Actions)

/-- Embedding of `VecEnvBase.reset()`: calls the task's `reset` hook, steps
the world with `render=self._render`, and returns the task's observations
alone (no dones/info in the return).  The adapter's own attributes, the frame
counter included, are untouched. -/
def VecEnvBase.reset {ε Actions Obs Rew Done TS WS Space : Type}
    (task : RLTask ε Actions Obs Rew Done TS Space) (w : WorldAPI ε WS)
    (env : EnvState Space) (ts : TS) (ws : WS) :
    ResetResult ε Actions Obs TS WS Space :=
  let ts1 := task.reset ts
  let wstep := w.step env.render ws
  match wstep.2 with
  | some e =>
    { env := env, ts := ts1, ws := wstep.1, out := Except.error e
      trace := [Call.taskReset, Call.worldStep env.render] }
  | Option.none =>
    let q := task.get_observations ts1
    { env := env, ts := q.2, ws := wstep.1, out := Except.ok q.1
      trace := [Call.taskReset, Call.worldStep env.render,
                Call.getObservations] }

/-- Result of one `render` call: adapter and world states after it and the
call trace (the Python method returns `None`). -/
structure RenderResult (Actions WS Space : Type) where
  env : EnvState Space
  ws : WS
  trace : List (Call Actions)

/-- Embedding of `VecEnvBase.render(mode)`: for `mode == "human"` it calls
`self._world.render()`; for any other mode it delegates to
`gym.Env.render(self, mode=mode)`, the base-class fallback, modelled from the
spec as an external call with no effect on the adapter or the world. -/
def VecEnvBase.render (Actions : Type) {ε WS Space : Type} (w : WorldAPI ε WS)
    (env : EnvState Space) (ws : WS) (mode : String) :
    RenderResult Actions WS Space :=
  if mode = humanMode then
    { env := env, ws := w.render ws, trace := [Call.worldRender] }
  else
    { env := env, ws := ws, trace := [Call.gymEnvRender mode] }

/-- Modelled from the spec: the external seeding utility
`omni.isaac.core.utils.torch.maths.set_seed` (not part of this repository's
sources), which "if `value` is -1, requests a random seed ... otherwise
forwards `value` verbatim; returns whatever seed was actually applied".
`randomSeed` stands for the utility's random draw. -/
def set_seed (randomSeed : Int) (seed : Int) : Int :=
  if seed = -1 then randomSeed else seed

/-- Embedding of `VecEnvBase.seed(seed)`: a pass-through to `set_seed`
returning its result. -/
def VecEnvBase.seed (randomSeed : Int) (seed : Int) : Int :=
  set_seed randomSeed seed

/-- A sequence of adapter calls, for stating properties over whole runs. -/
inductive GymOp (Actions : Type) where
  | stepOp : Actions → GymOp Actions
  | resetOp : GymOp Actions
  | renderOp : String → GymOp Actions

/-- Runs a sequence of `step`/`reset`/`render` calls on the bound adapter,
threading adapter, task and world state (a caller that catches exceptions and
keeps going). -/
def runOps {ε Actions Obs Rew Done TS WS Space : Type}
    (task : RLTask ε Actions Obs Rew Done TS Space) (w : WorldAPI ε WS) :
    List (GymOp Actions) → EnvState Space × TS × WS → EnvState Space × TS × WS
  | [], s => s
  | GymOp.stepOp a :: ops, (env, ts, ws) =>
    let r := VecEnvBase.step task w env ts ws a
    runOps task w ops (r.env, r.ts, r.ws)
  | GymOp.resetOp :: ops, (env, ts, ws) =>
    let r := VecEnvBase.reset task w env ts ws
    runOps task w ops (r.env, r.ts, r.ws)
  | GymOp.renderOp m :: ops, (env, ts, ws) =>
    let r := VecEnvBase.render Actions w env ws m
    runOps task w ops (r.env, ts, r.ws)

/-- Recognises a `taskReset` trace entry (instance-free counting helper). -/
def Call.isTaskReset {Actions : Type} : Call Actions → Bool
  | Call.taskReset => true
  | _ => false

/-- Recognises a `worldStep` trace entry (instance-free counting helper). -/
def Call.isWorldStep {Actions : Type} : Call Actions → Bool
  | Call.worldStep _ => true
  | _ => false

/-- Recognises a `worldRender` trace entry (instance-free counting helper). -/
def Call.isWorldRender {Actions : Type} : Call Actions → Bool
  | Call.worldRender => true
  | _ => false

/-- A concrete task used to evaluate the theorems on closed inputs: the task
state is a counter each hook advances. -/
def demoTask : RLTask Unit Int Int Int Bool Nat Nat :=
  { num_envs := 4
    observation_space := 17
    action_space := 23
    pre_physics_step := fun _ ts => (ts + 1, Option.none)
    get_observations := fun ts => ((ts : Int), ts + 1)
    calculate_metrics := fun ts => ((2 * ts : Int), ts + 1)
    is_done := fun ts => (decide (5 < ts), ts)
    reset := fun _ => 0 }

/-- A concrete task whose pre-physics hook always raises. -/
def demoFailingTask : RLTask Unit Int Int Int Bool Nat Nat :=
  { demoTask with pre_physics_step := fun _ ts => (ts, some ()) }

/-- A concrete world API used to evaluate the theorems on closed inputs. -/
def demoWorld : WorldAPI Unit Nat :=
  { create := fun _ => 100
    add_task := fun ws => ws + 1
    step := fun r ws => (ws + (if r then 2 else 1), Option.none)
    render := fun ws => ws + 10
    reset := fun _ => 0 }

/-- A concrete world API whose tick always raises. -/
def demoFailingWorld : WorldAPI Unit Nat :=
  { demoWorld with step := fun _ ws => (ws, some ()) }

/-- A concrete adapter state as left by a non-headless construction. -/
def demoEnv : EnvState Nat :=
  { render := true
    sim_frame_count := 0
    num_envs := Option.none
    observation_space := Option.none
    action_space := Option.none }

/-- A sample path for the `EXP_PATH` variable in closed evaluations. -/
def demoExpPath : String := "/isaac/exp"

/-- A sample process environment binding only `EXP_PATH`. -/
def demoEnvVars : String → Option String :=
  fun k => if k = expPathVarName then some demoExpPath else Option.none

/-- A process environment with no bindings at all. -/
def emptyEnvVars : String → Option String := fun _ => Option.none

/-- The unsupported render mode used in closed evaluations. -/
def rgbArrayMode : String := "rgb_array"

/-- A successful association-list lookup means the dict is nonempty. -/
theorem lookup_some_not_isEmpty {d : PyDict} {k : String} {v : PyVal}
    (h : d.lookup k = some v) : d.isEmpty = false := by
  cases d with
  | nil => simp [List.lookup] at h
  | cons p l => simp

/-- The device chosen in `set_task` is determined by the truthiness of the
`use_gpu_pipeline` entry alone: a set-and-truthy entry forces a nonempty,
truthy dict, so the outer guard never blocks it. -/
theorem chooseDevice_eq (sim_params : Option PyDict) :
    VecEnvBase.chooseDevice sim_params
      = if dictGetTruthy sim_params useGpuPipelineKey then cudaDevice
        else cpuDevice := by
  cases sim_params with
  | none => simp [VecEnvBase.chooseDevice, dictTruthy, dictContains, dictGetTruthy]
  | some d =>
    cases hl : d.lookup useGpuPipelineKey with
    | none =>
      simp [VecEnvBase.chooseDevice, dictTruthy, dictContains, dictGetTruthy, hl]
    | some v =>
      have hne := lookup_some_not_isEmpty hl
      simp [VecEnvBase.chooseDevice, dictTruthy, dictContains, dictGetTruthy, hl, hne]

/-- The `use_gpu_pipeline` entry is set and truthy exactly when
`dictGetTruthy` says so. -/
theorem dictGetTruthy_iff (sim_params : Option PyDict) (k : String) :
    dictGetTruthy sim_params k = true
      ↔ ∃ d v, sim_params = some d ∧ d.lookup k = some v ∧ v.truthy = true := by
  cases sim_params with
  | none => simp [dictGetTruthy]
  | some d =>
    cases hl : d.lookup k with
    | none => simp [dictGetTruthy, hl]
    | some v => simp [dictGetTruthy, hl]

/-- C1: for every `actions` input, a `step` whose two fallible external calls
succeed forwards `actions` to the task's `pre_physics_step` hook, advances
the world by one tick with the adapter's render flag, increments
`sim_frame_count` by exactly 1, queries the task for observations, rewards
and dones, and returns the 4-tuple `(observations, rewards, dones, info)`
with `info` the empty mapping — all regardless of the content of
`actions`. -/
theorem step_contract {ε Actions Obs Rew Done TS WS Space : Type}
    (task : RLTask ε Actions Obs Rew Done TS Space) (w : WorldAPI ε WS)
    (env : EnvState Space) (ts : TS) (ws : WS) (actions : Actions)
    (h1 : (task.pre_physics_step actions ts).2 = Option.none)
    (h2 : (w.step env.render ws).2 = Option.none) :
    (VecEnvBase.step task w env ts ws actions).trace
        = [Call.prePhysicsStep actions, Call.worldStep env.render,
           Call.getObservations, Call.calculateMetrics, Call.isDone]
    ∧ (VecEnvBase.step task w env ts ws actions).env.sim_frame_count
        = env.sim_frame_count + 1
    ∧ (VecEnvBase.step task w env ts ws actions).ws = (w.step env.render ws).1
    ∧ (VecEnvBase.step task w env ts ws actions).out
        = Except.ok
            ((task.get_observations (task.pre_physics_step actions ts).1).1,
             (task.calculate_metrics
               (task.get_observations (task.pre_physics_step actions ts).1).2).1,
             (task.is_done
               (task.calculate_metrics
                 (task.get_observations
                   (task.pre_physics_step actions ts).1).2).2).1,
             ([] : PyDict)) := by
  unfold VecEnvBase.step
  simp [h1, h2]

/-- Closed instance of `step_contract` on the demo fixtures. -/
theorem step_contract_witness :
    (VecEnvBase.step demoTask demoWorld demoEnv 0 0 3).env.sim_frame_count
        = demoEnv.sim_frame_count + 1
    ∧ (VecEnvBase.step demoTask demoWorld demoEnv 0 0 3).out
        = Except.ok (1, 4, false, ([] : PyDict)) := by
  have h := step_contract demoTask demoWorld demoEnv 0 0 3 rfl rfl
  exact ⟨h.2.1, by rw [h.2.2.2]; rfl⟩

/-- C2: every `reset` call invokes the task's reset hook exactly once and
issues exactly one world tick, with the adapter's render flag; when the tick
succeeds, the call returns exactly the task's observations — no done and no
info component (its result type `Except ε Obs` carries nothing else) — and
the adapter's own attributes are untouched. -/
theorem reset_contract {ε Actions Obs Rew Done TS WS Space : Type}
    (task : RLTask ε Actions Obs Rew Done TS Space) (w : WorldAPI ε WS)
    (env : EnvState Space) (ts : TS) (ws : WS) :
    (VecEnvBase.reset task w env ts ws).trace.countP
        (fun c => Call.isTaskReset c) = 1
    ∧ (VecEnvBase.reset task w env ts ws).trace.countP
        (fun c => Call.isWorldStep c) = 1
    ∧ ((w.step env.render ws).2 = Option.none →
        (VecEnvBase.reset task w env ts ws).trace
            = [Call.taskReset, Call.worldStep env.render, Call.getObservations]
        ∧ (VecEnvBase.reset task w env ts ws).out
            = Except.ok (task.get_observations (task.reset ts)).1
        ∧ (VecEnvBase.reset task w env ts ws).env = env) := by
  cases hw : (w.step env.render ws).2 with
  | none =>
    unfold VecEnvBase.reset
    simp [hw, List.countP_cons, Call.isTaskReset, Call.isWorldStep]
  | some e =>
    unfold VecEnvBase.reset
    simp [hw, List.countP_cons, Call.isTaskReset, Call.isWorldStep]

/-- Closed instance of `reset_contract` on the demo fixtures. -/
theorem reset_contract_witness :
    (VecEnvBase.reset demoTask demoWorld demoEnv 5 9).out = Except.ok 0
    ∧ (VecEnvBase.reset demoTask demoWorld demoEnv 5 9).env = demoEnv := by
  have h := (reset_contract demoTask demoWorld demoEnv 5 9).2.2 rfl
  exact ⟨by rw [h.2.1]; rfl, h.2.2⟩

/-- C3: immediately after `set_task`, the adapter's cached environment count
(the value the `num_envs` property returns), observation space and action
space equal the values the task declared at the time of the call. -/
theorem set_task_copies_task_declaration
    {ε Actions Obs Rew Done TS WS Space : Type}
    (w : WorldAPI ε WS) (env : EnvState Space)
    (task : RLTask ε Actions Obs Rew Done TS Space)
    (backend : String) (sim_params : Option PyDict) (init_sim : Bool) :
    (VecEnvBase.set_task w env task backend sim_params init_sim).env.num_envs
        = some task.num_envs
    ∧ (VecEnvBase.set_task w env task backend sim_params
        init_sim).env.observation_space = some task.observation_space
    ∧ (VecEnvBase.set_task w env task backend sim_params
        init_sim).env.action_space = some task.action_space := by
  unfold VecEnvBase.set_task
  cases init_sim <;> simp

/-- One `step` call never decreases the frame counter (it adds 1 on success
and leaves it alone when a fallible external call raises). -/
theorem step_frame_count_le {ε Actions Obs Rew Done TS WS Space : Type}
    (task : RLTask ε Actions Obs Rew Done TS Space) (w : WorldAPI ε WS)
    (env : EnvState Space) (ts : TS) (ws : WS) (a : Actions) :
    env.sim_frame_count
      ≤ (VecEnvBase.step task w env ts ws a).env.sim_frame_count := by
  unfold VecEnvBase.step
  cases hp : (task.pre_physics_step a ts).2 with
  | none =>
    cases hw : (w.step env.render ws).2 with
    | none => simp [hp, hw]
    | some e => simp [hp, hw]
  | some e => simp [hp]

/-- A `reset` call leaves the adapter's attributes untouched. -/
theorem reset_env_unchanged {ε Actions Obs Rew Done TS WS Space : Type}
    (task : RLTask ε Actions Obs Rew Done TS Space) (w : WorldAPI ε WS)
    (env : EnvState Space) (ts : TS) (ws : WS) :
    (VecEnvBase.reset task w env ts ws).env = env := by
  unfold VecEnvBase.reset
  cases hw : (w.step env.render ws).2 with
  | none => simp [hw]
  | some e => simp [hw]

/-- A `render` call leaves the adapter's attributes untouched. -/
theorem render_env_unchanged (Actions : Type) {ε WS Space : Type}
    (w : WorldAPI ε WS) (env : EnvState Space) (ws : WS) (mode : String) :
    (VecEnvBase.render Actions w env ws mode).env = env := by
  unfold VecEnvBase.render
  by_cases h : mode = humanMode <;> simp [h]

/-- Over any sequence of `step`/`reset`/`render` calls the frame counter
never decreases. -/
theorem runOps_frame_count_mono {ε Actions Obs Rew Done TS WS Space : Type}
    (task : RLTask ε Actions Obs Rew Done TS Space) (w : WorldAPI ε WS)
    (ops : List (GymOp Actions)) (s : EnvState Space × TS × WS) :
    s.1.sim_frame_count ≤ (runOps task w ops s).1.sim_frame_count := by
  induction ops generalizing s with
  | nil => simp [runOps]
  | cons op ops ih =>
    obtain ⟨env, ts, ws⟩ := s
    cases op with
    | stepOp a =>
      simp only [runOps]
      exact le_trans (step_frame_count_le task w env ts ws a)
        (ih ((VecEnvBase.step task w env ts ws a).env,
             (VecEnvBase.step task w env ts ws a).ts,
             (VecEnvBase.step task w env ts ws a).ws))
    | resetOp =>
      simp only [runOps]
      exact le_trans
        (le_of_eq (congrArg EnvState.sim_frame_count
          (reset_env_unchanged task w env ts ws)).symm)
        (ih ((VecEnvBase.reset task w env ts ws).env,
             (VecEnvBase.reset task w env ts ws).ts,
             (VecEnvBase.reset task w env ts ws).ws))
    | renderOp m =>
      simp only [runOps]
      exact le_trans
        (le_of_eq (congrArg EnvState.sim_frame_count
          (render_env_unchanged Actions w env ws m)).symm)
        (ih ((VecEnvBase.render Actions w env ws m).env, ts,
             (VecEnvBase.render Actions w env ws m).ws))

/-- C4: the frame counter starts at zero at construction, increases
monotonically over any call sequence — by exactly 1 on every completed
`step` — is left untouched when a step aborts, and is never reset by
`reset()`; only a fresh construction yields zero again. -/
theorem frame_counter_invariant {ε Actions Obs Rew Done TS WS Space : Type} :
    (∀ (env_vars : String → Option String) (headless : Bool)
       (sim_device : Int) (env : EnvState Space) (eff : InitEffects),
       VecEnvBase.construct Space env_vars headless sim_device
           = Except.ok (env, eff) →
       env.sim_frame_count = 0)
    ∧ (∀ (task : RLTask ε Actions Obs Rew Done TS Space) (w : WorldAPI ε WS)
         (env : EnvState Space) (ts : TS) (ws : WS) (a : Actions),
         (task.pre_physics_step a ts).2 = Option.none →
         (w.step env.render ws).2 = Option.none →
         (VecEnvBase.step task w env ts ws a).env.sim_frame_count
             = env.sim_frame_count + 1)
    ∧ (∀ (task : RLTask ε Actions Obs Rew Done TS Space) (w : WorldAPI ε WS)
         (env : EnvState Space) (ts : TS) (ws : WS),
         (VecEnvBase.reset task w env ts ws).env.sim_frame_count
             = env.sim_frame_count)
    ∧ (∀ (task : RLTask ε Actions Obs Rew Done TS Space) (w : WorldAPI ε WS)
         (ops : List (GymOp Actions)) (s : EnvState Space × TS × WS),
         s.1.sim_frame_count ≤ (runOps task w ops s).1.sim_frame_count) := by
  refine ⟨?_, ?_, ?_, ?_⟩
  · intro env_vars headless sim_device env eff h
    unfold VecEnvBase.construct at h
    cases headless with
    | false =>
      simp at h
      rw [← h.1]
    | true =>
      cases hv : env_vars expPathVarName with
      | none => simp [hv] at h
      | some p =>
        simp [hv] at h
        rw [← h.1]
    
  · intro task w env ts ws a h1 h2
    unfold VecEnvBase.step
    simp [h1, h2]
  · intro task w env ts ws
    rw [reset_env_unchanged task w env ts ws]
  · intro task w ops s
    exact runOps_frame_count_mono task w ops s

/-- Closed instance of `frame_counter_invariant` on the demo fixtures,
touching each conjunct: zero at construction, plus one on a completed step,
unchanged on reset. -/
theorem frame_counter_invariant_witness :
    (∃ env eff, VecEnvBase.construct Nat demoEnvVars false 0
        = Except.ok (env, eff) ∧ env.sim_frame_count = 0)
    ∧ (VecEnvBase.step demoTask demoWorld
        { demoEnv with sim_frame_count := 5 } 0 0 2).env.sim_frame_count = 6
    ∧ (VecEnvBase.reset demoTask demoWorld
        { demoEnv with sim_frame_count := 7 } 0 0).env.sim_frame_count = 7 := by
  have h := @frame_counter_invariant Unit Int Int Int Bool Nat Nat Nat
  refine ⟨?_, ?_, ?_⟩
  · have hc : VecEnvBase.construct Nat demoEnvVars false 0
        = Except.ok ({ demoEnv with sim_frame_count := 0 },
            { experience := defaultExperience
              app_config := { headless := false, physics_device := 0 }
              scene_graph_instancing := true }) := rfl
    exact ⟨_, _, hc, h.1 demoEnvVars false 0 _ _ hc⟩
  · exact h.2.1 demoTask demoWorld _ 0 0 2 rfl rfl
  · exact h.2.2.1 demoTask demoWorld _ 0 0

/-- C5: `set_task` passes the accelerated device to the `World` constructor
exactly when `sim_params` is present with a set-and-truthy
`use_gpu_pipeline` entry, and the host device otherwise (`sim_params`
absent, key missing, or value falsy included); the constructed world always
gets rendering interval 1/60, stage units 1, and the given backend. -/
theorem set_task_device_and_world_params
    {ε Actions Obs Rew Done TS WS Space : Type}
    (w : WorldAPI ε WS) (env : EnvState Space)
    (task : RLTask ε Actions Obs Rew Done TS Space)
    (backend : String) (sim_params : Option PyDict) (init_sim : Bool) :
    ((VecEnvBase.set_task w env task backend sim_params
        init_sim).world_params.device = cudaDevice
      ↔ ∃ d v, sim_params = some d
          ∧ d.lookup useGpuPipelineKey = some v ∧ v.truthy = true)
    ∧ ((VecEnvBase.set_task w env task backend sim_params
          init_sim).world_params.device = cudaDevice
        ∨ (VecEnvBase.set_task w env task backend sim_params
            init_sim).world_params.device = cpuDevice)
    ∧ (VecEnvBase.set_task w env task backend sim_params
        init_sim).world_params.rendering_dt = 1 / 60
    ∧ (VecEnvBase.set_task w env task backend sim_params
        init_sim).world_params.stage_units_in_meters = 1
    ∧ (VecEnvBase.set_task w env task backend sim_params
        init_sim).world_params.backend = backend
    ∧ (VecEnvBase.set_task w env task backend sim_params
        init_sim).world_params.sim_params = sim_params := by
  have hwp : (VecEnvBase.set_task w env task backend sim_params
      init_sim).world_params
      = { stage_units_in_meters := 1
          rendering_dt := 1 / 60
          backend := backend
          sim_params := sim_params
          device := VecEnvBase.chooseDevice sim_params } := by
    unfold VecEnvBase.set_task
    cases init_sim <;> simp
  have hcuda : VecEnvBase.chooseDevice sim_params = cudaDevice
      ↔ ∃ d v, sim_params = some d ∧ d.lookup useGpuPipelineKey = some v
          ∧ v.truthy = true := by
    rw [chooseDevice_eq, ← dictGetTruthy_iff sim_params useGpuPipelineKey]
    cases hg : dictGetTruthy sim_params useGpuPipelineKey <;> decide
  have hor : VecEnvBase.chooseDevice sim_params = cudaDevice
      ∨ VecEnvBase.chooseDevice sim_params = cpuDevice := by
    rw [chooseDevice_eq]
    cases hg : dictGetTruthy sim_params useGpuPipelineKey <;> simp
  rw [hwp]
  exact ⟨hcuda, hor, rfl, rfl, rfl, rfl⟩

/-- Closed instance of `set_task_device_and_world_params`: a truthy
`use_gpu_pipeline` entry yields the accelerated device. -/
theorem set_task_device_and_world_params_witness :
    (VecEnvBase.set_task demoWorld demoEnv demoTask defaultExperience
        (some [(useGpuPipelineKey, PyVal.pyBool true)])
        true).world_params.device = cudaDevice := by
  exact (set_task_device_and_world_params demoWorld demoEnv demoTask
      defaultExperience (some [(useGpuPipelineKey, PyVal.pyBool true)])
      true).1.mpr
    ⟨[(useGpuPipelineKey, PyVal.pyBool true)], PyVal.pyBool true, rfl,
      rfl, rfl⟩

/-- C6: `render(mode)` advances the world's renderer by one frame if and
only if `mode` is `"human"`; any other mode never reaches the world's render
step and instead delegates to the base-class environment render (an external
call with no adapter-visible effect). -/
theorem render_mode_dispatch (Actions : Type) {ε WS Space : Type}
    (w : WorldAPI ε WS) (env : EnvState Space) (ws : WS) (mode : String) :
    (mode = humanMode →
        (VecEnvBase.render Actions w env ws mode).ws = w.render ws
        ∧ (VecEnvBase.render Actions w env ws mode).trace = [Call.worldRender])
    ∧ (mode ≠ humanMode →
        (VecEnvBase.render Actions w env ws mode).ws = ws
        ∧ (VecEnvBase.render Actions w env ws mode).trace
            = [Call.gymEnvRender mode])
    ∧ ((VecEnvBase.render Actions w env ws mode).trace.countP
          (fun c => Call.isWorldRender c) = 1 ↔ mode = humanMode) := by
  by_cases h : mode = humanMode
  · refine ⟨fun _ => ?_, fun hn => absurd h hn, ?_⟩
    · unfold VecEnvBase.render
      simp [h]
    · unfold VecEnvBase.render
      simp [h, List.countP_cons, Call.isWorldRender]
  · refine ⟨fun hy => absurd hy h, fun _ => ?_, ?_⟩
    · unfold VecEnvBase.render
      simp [h]
    · unfold VecEnvBase.render
      simp [h, List.countP_cons, Call.isWorldRender]

/-- Closed instance of `render_mode_dispatch`: human mode renders, rgb_array
mode does not touch the world and delegates to the base class. -/
theorem render_mode_dispatch_witness :
    (VecEnvBase.render Int demoWorld demoEnv 3 humanMode).ws = demoWorld.render 3
    ∧ (VecEnvBase.render Int demoWorld demoEnv 3 rgbArrayMode).ws = 3
    ∧ (VecEnvBase.render Int demoWorld demoEnv 3 rgbArrayMode).trace
        = [Call.gymEnvRender rgbArrayMode] := by
  have h1 := (render_mode_dispatch Int demoWorld demoEnv 3 humanMode).1 rfl
  have h2 := (render_mode_dispatch Int demoWorld demoEnv 3 rgbArrayMode).2.1
    (by decide)
  exact ⟨h1.1, h2.1, h2.2⟩

/-- C7: construction records `render = not headless` and a zero frame
counter, launches the simulation app with the given headless flag and
physics device, and consults the `EXP_PATH` environment variable only when
`headless` is true: a non-headless construction is independent of the
process environment, while a headless one reads the variable to build the
headless experience file path (and raises `KeyError` when it is absent). -/
theorem construct_contract (Space : Type)
    (env_vars env_vars2 : String → Option String)
    (headless : Bool) (sim_device : Int) :
    (∀ (env : EnvState Space) (eff : InitEffects),
        VecEnvBase.construct Space env_vars headless sim_device
            = Except.ok (env, eff) →
        env.render = !headless ∧ env.sim_frame_count = 0
        ∧ eff.app_config
            = { headless := headless, physics_device := sim_device }
        ∧ eff.scene_graph_instancing = true)
    ∧ (headless = false →
        VecEnvBase.construct Space env_vars headless sim_device
            = VecEnvBase.construct Space env_vars2 headless sim_device)
    ∧ (headless = true → ∀ p, env_vars expPathVarName = some p →
        ∃ env eff, VecEnvBase.construct Space env_vars headless sim_device
            = Except.ok (env, eff)
          ∧ eff.experience = p ++ headlessKitSuffix)
    ∧ (headless = true → env_vars expPathVarName = Option.none →
        VecEnvBase.construct Space env_vars headless sim_device
            = Except.error (PyError.keyError expPathVarName)) := by
  refine ⟨?_, ?_, ?_, ?_⟩
  · intro env eff h
    unfold VecEnvBase.construct at h
    cases headless with
    | false =>
      simp at h
      obtain ⟨henv, heff⟩ := h
      subst henv
      subst heff
      exact ⟨rfl, rfl, rfl, rfl⟩
    | true =>
      cases hv : env_vars expPathVarName with
      | none => simp [hv] at h
      | some p =>
        simp [hv] at h
        obtain ⟨henv, heff⟩ := h
        subst henv
        subst heff
        exact ⟨rfl, rfl, rfl, rfl⟩
  · intro h
    subst h
    unfold VecEnvBase.construct
    simp
  · intro h p hv
    subst h
    unfold VecEnvBase.construct
    simp [hv]
    exact ⟨_, _, ⟨rfl, rfl⟩, rfl⟩
  · intro h hv
    subst h
    unfold VecEnvBase.construct
    simp [hv]

/-- Closed instance of `construct_contract`: a headless construction with
`EXP_PATH` bound succeeds and builds the experience path from it; one
without the binding raises `KeyError`. -/
theorem construct_contract_witness :
    (∃ env eff, VecEnvBase.construct Nat demoEnvVars true 0
        = Except.ok (env, eff)
      ∧ eff.experience = demoExpPath ++ headlessKitSuffix)
    ∧ VecEnvBase.construct Nat emptyEnvVars true 0
        = Except.error (PyError.keyError expPathVarName) := by
  exact ⟨(construct_contract Nat demoEnvVars demoEnvVars true 0).2.2.1 rfl
      demoExpPath (by simp [demoEnvVars]),
    (construct_contract Nat emptyEnvVars emptyEnvVars true 0).2.2.2 rfl rfl⟩

/-- C8: `seed(value)` forwards `value` verbatim to the external seeding
utility without range validation; for any `value` other than -1 the utility
applies and returns it (in particular `seed(5)` returns 5), while
`seed(-1)` requests and returns the utility's random draw. -/
theorem seed_contract (randomSeed : Int) (value : Int) :
    (value ≠ -1 → VecEnvBase.seed randomSeed value = value)
    ∧ VecEnvBase.seed randomSeed (-1) = randomSeed
    ∧ VecEnvBase.seed randomSeed 5 = 5 := by
  refine ⟨fun h => ?_, ?_, ?_⟩
  · simp [VecEnvBase.seed, set_seed, h]
  · simp [VecEnvBase.seed, set_seed]
  · simp [VecEnvBase.seed, set_seed]

/-- Closed instance of `seed_contract`: `seed(5)` returns 5 whatever the
random draw would have been, and `seed(-1)` returns the draw. -/
theorem seed_contract_witness :
    VecEnvBase.seed 7 5 = 5 ∧ VecEnvBase.seed 7 (-1) = 7 := by
  exact ⟨(seed_contract 7 5).1 (by decide), (seed_contract 7 5).2.1⟩

/-- C9: a `step` whose `pre_physics_step` hook raises leaves the adapter's
attributes — `sim_frame_count` in particular — unchanged, propagates the
exception, and never reaches the world tick; likewise a step aborted by the
world tick itself is not counted, since the increment runs only after both
calls complete. -/
theorem step_abort_preserves_frame_count
    {ε Actions Obs Rew Done TS WS Space : Type}
    (task : RLTask ε Actions Obs Rew Done TS Space) (w : WorldAPI ε WS)
    (env : EnvState Space) (ts : TS) (ws : WS) (a : Actions) :
    (∀ e, (task.pre_physics_step a ts).2 = some e →
        (VecEnvBase.step task w env ts ws a).env = env
        ∧ (VecEnvBase.step task w env ts ws a).env.sim_frame_count
            = env.sim_frame_count
        ∧ (VecEnvBase.step task w env ts ws a).out = Except.error e
        ∧ (VecEnvBase.step task w env ts ws a).trace
            = [Call.prePhysicsStep a])
    ∧ (∀ e, (task.pre_physics_step a ts).2 = Option.none →
        (w.step env.render ws).2 = some e →
        (VecEnvBase.step task w env ts ws a).env = env
        ∧ (VecEnvBase.step task w env ts ws a).env.sim_frame_count
            = env.sim_frame_count) := by
  constructor
  · intro e he
    unfold VecEnvBase.step
    simp [he]
  · intro e hp hw
    unfold VecEnvBase.step
    simp [hp, hw]

/-- Closed instance of `step_abort_preserves_frame_count`: a raising hook
and a raising tick each leave the counter where it was. -/
theorem step_abort_preserves_frame_count_witness :
    (VecEnvBase.step demoFailingTask demoWorld
        { demoEnv with sim_frame_count := 9 } 0 0 1).env.sim_frame_count = 9
    ∧ (VecEnvBase.step demoTask demoFailingWorld
        { demoEnv with sim_frame_count := 9 } 0 0 1).env.sim_frame_count
        = 9 := by
  exact ⟨((step_abort_preserves_frame_count demoFailingTask demoWorld
      { demoEnv with sim_frame_count := 9 } 0 0 1).1 () rfl).2.1,
    ((step_abort_preserves_frame_count demoTask demoFailingWorld
      { demoEnv with sim_frame_count := 9 } 0 0 1).2 () rfl rfl).2⟩

/-- C10: `render(mode)` leaves every attribute of the adapter unchanged for
every mode — in particular `sim_frame_count` never moves, so rendered
frames are not counted; only `step` ticks are. -/
theorem render_preserves_adapter_state (Actions : Type) {ε WS Space : Type}
    (w : WorldAPI ε WS) (env : EnvState Space) (ws : WS) (mode : String) :
    (VecEnvBase.render Actions w env ws mode).env = env
    ∧ (VecEnvBase.render Actions w env ws mode).env.sim_frame_count
        = env.sim_frame_count := by
  have h : (VecEnvBase.render Actions w env ws mode).env = env := by
    unfold VecEnvBase.render
    by_cases hm : mode = humanMode <;> simp [hm]
  exact ⟨h, by rw [h]⟩
